import Mathlib

/-!
Shallow embedding of the Allwinner UART driver (`src/allwinner-hal/src/uart.rs`).

Machine integers (`u8`, `u16`, `u32`) are modelled as `Nat` with explicit
`% 2 ^ w` reductions wherever the Rust arithmetic can wrap, and a Rust panic
(division by zero) is modelled as `Option.none`.  Register reads and writes
are modelled by an explicit event trace; the values successive hardware reads
return are supplied as lists (a spin loop that never observes its awaited bit
is modelled by exhausting the list, i.e. `none` = unbounded hang).
-/

namespace AllwinnerUart

/-- The uninhabited error type `core::convert::Infallible`. -/
inductive Infallible : Type

instance : DecidableEq Infallible := fun a => nomatch a

/-- Rust's `Result` type, as returned by the blocking I/O routines. -/
inductive RustResult (E A : Type) where
  | ok (value : A)
  | error (err : E)
deriving DecidableEq

/-- Serial word length settings (`WordLength` in `uart.rs`). -/
inductive WordLength where
  | Five
  | Six
  | Seven
  | Eight
deriving DecidableEq, Fintype

/-- Serial parity bit settings (`Parity` in `uart.rs`). -/
inductive Parity where
  | None
  | Odd
  | Even
deriving DecidableEq, Fintype

/-- Stop bit settings (`StopBits` in `uart.rs`). -/
inductive StopBits where
  | One
  | Two
deriving DecidableEq, Fintype

/-- Serial configuration structure (`Config` in `uart.rs`); `baudrate` is the
`u32` payload of the `Baud` newtype. -/
structure Config where
  baudrate : Nat
  wordlength : WordLength
  parity : Parity
  stopbits : StopBits
deriving DecidableEq

/-- Default configuration (`impl Default for Config`): 115200-8-N-1. -/
def Config.default : Config :=
  { baudrate := 115200, wordlength := .Eight, parity := .None, stopbits := .One }

/-- Character-length codes of the external `uart16550` register crate
(`CharLen::FIVE/SIX/SEVEN/EIGHT`), an opaque enumeration of four distinct
line-control field values. -/
inductive CharLen where
  | FIVE
  | SIX
  | SEVEN
  | EIGHT
deriving DecidableEq, Fintype

/-- Parity codes of the external `uart16550` register crate
(`PARITY::NONE/ODD/EVEN`), an opaque enumeration of three distinct
line-control field values. -/
inductive PARITY where
  | NONE
  | ODD
  | EVEN
deriving DecidableEq, Fintype

/-- Interrupt-enable register value of the external `uart16550` crate: the
four maskable interrupt sources (modem status, received data available,
receiver line status, transmitter holding register empty) plus the remaining
register bits, which the `disable_*` builders leave untouched. -/
structure InterruptTypes where
  ms : Bool
  rda : Bool
  rls : Bool
  thre : Bool
  rest : Nat
deriving DecidableEq

def InterruptTypes.disable_ms (t : InterruptTypes) : InterruptTypes :=
  { t with ms := false }

def InterruptTypes.disable_rda (t : InterruptTypes) : InterruptTypes :=
  { t with rda := false }

def InterruptTypes.disable_rls (t : InterruptTypes) : InterruptTypes :=
  { t with rls := false }

def InterruptTypes.disable_thre (t : InterruptTypes) : InterruptTypes :=
  { t with thre := false }

/-- Line-control register value of the external `uart16550` crate: the
character-length, stop-bit and parity fields plus the remaining register
bits, which the `set_*` builders leave untouched (read-modify-write). -/
structure LineControl where
  char_len : CharLen
  one_stop_bit : Bool
  parity : PARITY
  rest : Nat
deriving DecidableEq

def LineControl.set_char_len (l : LineControl) (c : CharLen) : LineControl :=
  { l with char_len := c }

def LineControl.set_one_stop_bit (l : LineControl) (b : Bool) : LineControl :=
  { l with one_stop_bit := b }

def LineControl.set_parity (l : LineControl) (p : PARITY) : LineControl :=
  { l with parity := p }

/- `UartStatus`: a one-byte snapshot of the vendor status register. -/
namespace UartStatus

def RFF : Nat := 1 <<< 4
def RFNE : Nat := 1 <<< 3
def TFE : Nat := 1 <<< 2
def TFNF : Nat := 1 <<< 1
def BUSY : Nat := 1 <<< 0

/-- Source: `self.0 & Self::RFF != 0` -/
def receive_fifo_full (s : Nat) : Bool := s &&& RFF != 0

/-- Source: `self.0 & Self::RFNE != 0` -/
def receive_fifo_not_empty (s : Nat) : Bool := s &&& RFNE != 0

/-- Source: `self.0 & Self::TFE != 0` -/
def transmit_fifo_empty (s : Nat) : Bool := s &&& TFE != 0

/-- Source: `self.0 & Self::TFNF != 0` -/
def transmit_fifo_not_full (s : Nat) : Bool := s &&& TFNF != 0

/-- Source: `self.0 & Self::BUSY != 0` -/
def busy (s : Nat) : Bool := s &&& BUSY != 0

end UartStatus

/-- Line-status register of the external `uart16550` crate: `is_data_ready`
tests the 16550 LSR data-ready bit (bit 0). -/
def is_data_ready (l : Nat) : Bool := l &&& 1 != 0

/-- The divisor computation of `Serial::new` (line 123-124 of `uart.rs`):
`let uart_clk = (clocks.apb1.0 + 8 * bps) / (16 * bps);
 uart.as_ref().write_divisor(uart_clk as u16);`
performed in `u32` arithmetic (wrapping, modelled by `% 2 ^ 32`), with the
`as u16` cast modelled by `% 2 ^ 16`.  Rust panics on division by zero, so a
zero (wrapped) divisor yields `none`. -/
def serialDivisor (apb1 bps : Nat) : Option Nat :=
  let n := (apb1 + 8 * bps) % 2 ^ 32
  let d := (16 * bps) % 2 ^ 32
  if d = 0 then none else some (n / d % 2 ^ 16)

/-- One observable hardware access performed by the driver, in program
order: clock-gate operations, interrupt-enable register accesses, divisor
latch programming, line-control accesses, and the per-byte I/O accesses
(vendor status reads, transmit-holding stores, line-status reads,
receive-buffer loads). -/
inductive Event where
  | clockReset
  | clockFree
  | ierRead
  | ierWrite (v : InterruptTypes)
  | divisorWrite (v : Nat)
  | lcrRead
  | lcrWrite (v : LineControl)
  | usrRead
  | thrWrite (b : Nat)
  | lsrRead
  | rbrRead
deriving DecidableEq

/-- The spin loop `while uart.usr.read().busy() { spin_loop() }` of
`uart_write_blocking`: consume successive vendor-status read values until
the first whose busy bit is clear; return the number of reads performed and
the unconsumed reads.  `none` models the loop never terminating (every
supplied read is busy). -/
def spinWhileBusy : List Nat → Option (Nat × List Nat)
  | [] => none
  | s :: rest =>
    if UartStatus.busy s then
      (spinWhileBusy rest).map fun p => (p.1 + 1, p.2)
    else
      some (1, rest)

/-- The `for c in buffer` loop of `uart_write_blocking`: per byte, spin
while busy, then store the byte to the transmit holding register.  Returns
the access trace and the unconsumed status reads. -/
def writeLoop : List Nat → List Nat → Option (List Event × List Nat)
  | [], usrReads => some ([], usrReads)
  | c :: cs, usrReads =>
    (spinWhileBusy usrReads).bind fun p =>
      (writeLoop cs p.2).map fun q =>
        (List.replicate p.1 Event.usrRead ++ [Event.thrWrite c] ++ q.1, q.2)

/-- Function `uart_write_blocking(uart, buffer) -> Result<usize, Infallible>`
(lines 208-221 of `uart.rs`), additionally returning the access trace; the
hardware's successive status-register read values are the `usrReads`
argument. -/
def uart_write_blocking (usrReads : List Nat) (buffer : List Nat) :
    Option (List Event × RustResult Infallible Nat) :=
  (writeLoop buffer usrReads).map fun q => (q.1, RustResult.ok buffer.length)

/-- The spin loop `while !uart.usr.read().transmit_fifo_empty()` of
`uart_flush_blocking`. -/
def spinUntilEmpty : List Nat → Option (Nat × List Nat)
  | [] => none
  | s :: rest =>
    if UartStatus.transmit_fifo_empty s then
      some (1, rest)
    else
      (spinUntilEmpty rest).map fun p => (p.1 + 1, p.2)

/-- Function `uart_flush_blocking(uart) -> Result<(), Infallible>` (lines 223-229 of
`uart.rs`), with its access trace. -/
def uart_flush_blocking (usrReads : List Nat) :
    Option (List Event × RustResult Infallible Unit) :=
  (spinUntilEmpty usrReads).map fun p =>
    (List.replicate p.1 Event.usrRead, RustResult.ok ())

/-- The spin loop `while !uart.uart16550.lsr().read().is_data_ready()` of
`uart_read_blocking`: consume successive line-status read values until the
first with the data-ready bit set. -/
def spinUntilReady : List Nat → Option (Nat × List Nat)
  | [] => none
  | l :: rest =>
    if is_data_ready l then
      some (1, rest)
    else
      (spinUntilReady rest).map fun p => (p.1 + 1, p.2)

/-- The `for c in buffer` loop of `uart_read_blocking`: per destination
byte, spin until data ready, then load the receive buffer register.  `rx i`
is the value the hardware returns for the `i`-th receive-buffer load;
returns the trace, the bytes stored into the buffer, and the unconsumed
line-status reads. -/
def readLoop : Nat → List Nat → (Nat → Nat) → Nat → Option (List Event × List Nat × List Nat)
  | 0, lsrReads, _rx, _loads => some ([], [], lsrReads)
  | n + 1, lsrReads, rx, loads =>
    (spinUntilReady lsrReads).bind fun p =>
      (readLoop n p.2 rx (loads + 1)).map fun q =>
        (List.replicate p.1 Event.lsrRead ++ [Event.rbrRead] ++ q.1,
         rx loads :: q.2.1, q.2.2)

/-- Function `uart_read_blocking(uart, buffer) -> Result<usize, Infallible>`
(lines 231-244 of `uart.rs`) for a destination buffer of length `n`, with
its access trace and the bytes written into the buffer. -/
def uart_read_blocking (lsrReads : List Nat) (rx : Nat → Nat) (n : Nat) :
    Option (List Event × List Nat × RustResult Infallible Nat) :=
  (readLoop n lsrReads rx 0).map fun q => (q.1, q.2.1, RustResult.ok n)

/-- Managed serial structure with peripheral and pads (`Serial<UART, I,
PADS>`); the const-generic instance index and pad trait bounds are erased
in the model. -/
structure Serial (UART PADS : Type) where
  uart : UART
  pads : PADS
deriving DecidableEq

/-- Transmit half from splitted serial structure. -/
structure TransmitHalf (UART PADS : Type) where
  uart : UART
  _pads : PADS

/-- Receive half from splitted serial structure. -/
structure ReceiveHalf (UART PADS : Type) where
  uart : UART
  _pads : PADS

/-- The `char_len` match of `Serial::new` (lines 126-131 of `uart.rs`). -/
def charLenOf : WordLength → CharLen
  | WordLength.Five => CharLen.FIVE
  | WordLength.Six => CharLen.SIX
  | WordLength.Seven => CharLen.SEVEN
  | WordLength.Eight => CharLen.EIGHT

/-- Source: `let one_stop_bit = matches!(stopbits, StopBits::One)` (line 132). -/
def oneStopBitOf : StopBits → Bool
  | StopBits.One => true
  | StopBits.Two => false

/-- The `parity` match of `Serial::new` (lines 133-137 of `uart.rs`). -/
def parityOf : Parity → PARITY
  | Parity.None => PARITY.NONE
  | Parity.Odd => PARITY.ODD
  | Parity.Even => PARITY.EVEN

/-- The triple of line-control field values `Serial::new` derives from a
configuration's (word length, stop bits, parity) triple. -/
def lcrFieldValues (t : WordLength × StopBits × Parity) : CharLen × Bool × PARITY :=
  (charLenOf t.1, oneStopBitOf t.2.1, parityOf t.2.2)

/-- Constructor `Serial::new(uart, pads, config, clocks, ccu)` (lines 94-146 of
`uart.rs`): clock-gate reset, interrupt masking, divisor programming,
line-control read-modify-write, in program order, returning the access
trace and the constructed handle.  `ier0` and `lcr0` are the values the
hardware returns for the interrupt-enable and line-control reads; `apb1`
is `clocks.apb1.0`.  `none` models the divisor computation panicking. -/
def Serial.new {UART PADS : Type} (uart : UART) (pads : PADS) (config : Config)
    (apb1 : Nat) (ier0 : InterruptTypes) (lcr0 : LineControl) :
    Option (List Event × Serial UART PADS) :=
  let bps := config.baudrate
  let tr1 : List Event := [Event.clockReset]
  let interrupt_types := ier0
  let tr2 := tr1 ++ [Event.ierRead,
    Event.ierWrite interrupt_types.disable_ms.disable_rda.disable_rls.disable_thre]
  (serialDivisor apb1 bps).map fun uart_clk =>
    let tr3 := tr2 ++ [Event.divisorWrite uart_clk]
    let char_len := charLenOf config.wordlength
    let one_stop_bit := oneStopBitOf config.stopbits
    let parity := parityOf config.parity
    let lcr := lcr0
    let tr4 := tr3 ++ [Event.lcrRead,
      Event.lcrWrite (((lcr.set_char_len char_len).set_one_stop_bit
        one_stop_bit).set_parity parity)]
    (tr4, { uart := uart, pads := pads })

/-- Teardown `Serial::free(self, ccu) -> (UART, PADS)` (lines 157-161 of `uart.rs`):
disable the clock gate, then return the peripheral and pads. -/
def Serial.free {UART PADS : Type} (s : Serial UART PADS) :
    List Event × UART × PADS :=
  ([Event.clockFree], s.uart, s.pads)

/-- Split `Serial::split(self)` (lines 169-180 of `uart.rs`): duplicate the
peripheral reference into both halves and partition the pad pair. -/
def Serial.split {UART TX RX : Type} (s : Serial UART (TX × RX)) :
    TransmitHalf UART TX × ReceiveHalf UART RX :=
  ({ uart := s.uart, _pads := s.pads.1 }, { uart := s.uart, _pads := s.pads.2 })

/-- Behavioural view of one `RegisterBlock`: the successive values its
status-register reads, line-status reads and receive-buffer loads return. -/
structure RegisterBlockEnv where
  usrReads : List Nat
  lsrReads : List Nat
  rx : Nat → Nat

/-- Impl `embedded_io::Write for Serial` — `write` delegates to
`uart_write_blocking(self.uart.as_ref(), buffer)`. -/
def Serial.write {PADS : Type} (s : Serial RegisterBlockEnv PADS)
    (buffer : List Nat) : Option (List Event × RustResult Infallible Nat) :=
  uart_write_blocking s.uart.usrReads buffer

/-- Impl `embedded_io::Write for Serial` — `flush` delegates to
`uart_flush_blocking(self.uart.as_ref())`. -/
def Serial.flush {PADS : Type} (s : Serial RegisterBlockEnv PADS) :
    Option (List Event × RustResult Infallible Unit) :=
  uart_flush_blocking s.uart.usrReads

/-- Impl `embedded_io::Read for Serial` — `read` delegates to
`uart_read_blocking(self.uart.as_ref(), buffer)`. -/
def Serial.read {PADS : Type} (s : Serial RegisterBlockEnv PADS) (n : Nat) :
    Option (List Event × List Nat × RustResult Infallible Nat) :=
  uart_read_blocking s.uart.lsrReads s.uart.rx n

/-- Impl `embedded_io::Write for TransmitHalf` — same delegation. -/
def TransmitHalf.write {PADS : Type} (h : TransmitHalf RegisterBlockEnv PADS)
    (buffer : List Nat) : Option (List Event × RustResult Infallible Nat) :=
  uart_write_blocking h.uart.usrReads buffer

/-- Impl `embedded_io::Write for TransmitHalf` — same delegation. -/
def TransmitHalf.flush {PADS : Type} (h : TransmitHalf RegisterBlockEnv PADS) :
    Option (List Event × RustResult Infallible Unit) :=
  uart_flush_blocking h.uart.usrReads

/-- Impl `embedded_io::Read for ReceiveHalf` — same delegation. -/
def ReceiveHalf.read {PADS : Type} (h : ReceiveHalf RegisterBlockEnv PADS)
    (n : Nat) : Option (List Event × List Nat × RustResult Infallible Nat) :=
  uart_read_blocking h.uart.lsrReads h.uart.rx n

/-- Helper: a bitmask test against a single-bit mask `1 <<< k` is exactly
the test of bit `k`. -/
theorem and_single_bit_mask (b k : Nat) : (b &&& (1 <<< k) != 0) = b.testBit k := by
  rw [Nat.one_shiftLeft, Nat.and_two_pow]
  cases h : b.testBit k <;> simp

/-- C5: each `UartStatus` accessor is a pure bitmask test on the status
byte against fixed bit positions — bit 0 = busy, bit 1 =
transmit-fifo-not-full, bit 2 = transmit-fifo-empty, bit 3 =
receive-fifo-not-empty, bit 4 = receive-fifo-full — and for the byte
`0b00010011` the accessors return `receive_fifo_full = true`,
`receive_fifo_not_empty = false`, `transmit_fifo_empty = false`,
`transmit_fifo_not_full = true`, `busy = true`. -/
theorem uart_status_decode :
    (∀ b : Nat,
      UartStatus.busy b = b.testBit 0 ∧
      UartStatus.transmit_fifo_not_full b = b.testBit 1 ∧
      UartStatus.transmit_fifo_empty b = b.testBit 2 ∧
      UartStatus.receive_fifo_not_empty b = b.testBit 3 ∧
      UartStatus.receive_fifo_full b = b.testBit 4) ∧
    (UartStatus.receive_fifo_full 0b00010011 = true ∧
      UartStatus.receive_fifo_not_empty 0b00010011 = false ∧
      UartStatus.transmit_fifo_empty 0b00010011 = false ∧
      UartStatus.transmit_fifo_not_full 0b00010011 = true ∧
      UartStatus.busy 0b00010011 = true) := by
  refine ⟨fun b => ⟨?_, ?_, ?_, ?_, ?_⟩, by decide⟩
  · exact and_single_bit_mask b 0
  · exact and_single_bit_mask b 1
  · exact and_single_bit_mask b 2
  · exact and_single_bit_mask b 3
  · exact and_single_bit_mask b 4

/-- C6: the translation of a configuration's (word length, stop bits,
parity) triple into the line-control field values is total (every of the
4 × 2 × 3 = 24 combinations produces an encoding) and injective (no two
distinct combinations produce the same field values). -/
theorem lcr_mapping_total_injective :
    (∀ a : WordLength × StopBits × Parity, ∃ e, lcrFieldValues a = e) ∧
    (∀ a b : WordLength × StopBits × Parity,
      lcrFieldValues a = lcrFieldValues b → a = b) :=
  ⟨fun a => ⟨lcrFieldValues a, rfl⟩, by decide⟩

/-- Witness for C6 at a concrete pair of inputs. -/
theorem lcr_mapping_total_injective_witness :
    ((WordLength.Five, StopBits.Two, Parity.Odd) : WordLength × StopBits × Parity) =
      (WordLength.Five, StopBits.Two, Parity.Odd) :=
  lcr_mapping_total_injective.2
    (WordLength.Five, StopBits.Two, Parity.Odd)
    (WordLength.Five, StopBits.Two, Parity.Odd) (by decide)

/-- C8: after `split`, `write`/`flush` on the transmit half and `read` on
the receive half are the very same operations as on the unsplit handle —
both delegate to the same blocking routine on the same duplicated
peripheral reference. -/
theorem split_halves_equiv {TX RX : Type} (s : Serial RegisterBlockEnv (TX × RX))
    (buffer : List Nat) (n : Nat) :
    s.split.1.write buffer = s.write buffer ∧
    s.split.1.flush = s.flush ∧
    s.split.2.read n = s.read n ∧
    s.split.1.uart = s.uart ∧
    s.split.2.uart = s.uart :=
  ⟨rfl, rfl, rfl, rfl, rfl⟩

/-- C10: on an empty buffer, `write` returns `Ok(0)` and `read` returns
`Ok(0)`, each with an empty access trace (no status read, no line-status
read, no data-register load or store). -/
theorem empty_buffer_no_access (usrReads lsrReads : List Nat) (rx : Nat → Nat) :
    uart_write_blocking usrReads [] = some ([], RustResult.ok 0) ∧
    uart_read_blocking lsrReads rx 0 = some ([], [], RustResult.ok 0) :=
  ⟨rfl, rfl⟩

/-- Helper: a successful busy-spin performed at least one status read. -/
theorem spinWhileBusy_pos (env : List Nat) (k : Nat) (env' : List Nat)
    (h : spinWhileBusy env = some (k, env')) : 0 < k := by
  induction env generalizing k env' with
  | nil => simp [spinWhileBusy] at h
  | cons s rest ih =>
    simp only [spinWhileBusy] at h
    split at h
    · obtain ⟨p, -, hf⟩ := Option.map_eq_some'.mp h
      injection hf with h1 h2
      omega
    · simp only [Option.some.injEq, Prod.mk.injEq] at h
      omega

/-- Helper: a successful data-ready spin performed at least one
line-status read. -/
theorem spinUntilReady_pos (env : List Nat) (k : Nat) (env' : List Nat)
    (h : spinUntilReady env = some (k, env')) : 0 < k := by
  induction env generalizing k env' with
  | nil => simp [spinUntilReady] at h
  | cons l rest ih =>
    simp only [spinUntilReady] at h
    split at h
    · simp only [Option.some.injEq, Prod.mk.injEq] at h
      omega
    · obtain ⟨p, -, hf⟩ := Option.map_eq_some'.mp h
      injection hf with h1 h2
      omega

/-- Helper: a successful `writeLoop` produces, for each buffer byte in
order, a positive number of status reads followed by exactly one
transmit-holding store of that byte. -/
theorem writeLoop_trace (buffer : List Nat) :
    ∀ (usr : List Nat) (tr : List Event) (usr2 : List Nat),
      writeLoop buffer usr = some (tr, usr2) →
      ∃ ks : List Nat, ks.length = buffer.length ∧ (∀ k ∈ ks, 0 < k) ∧
        tr = (List.zipWith
          (fun k c => List.replicate k Event.usrRead ++ [Event.thrWrite c])
          ks buffer).flatten := by
  induction buffer with
  | nil =>
    intro usr tr usr2 h
    simp only [writeLoop, Option.some.injEq, Prod.mk.injEq] at h
    exact ⟨[], by simp, by simp, by simp [← h.1]⟩
  | cons c cs ih =>
    intro usr tr usr2 h
    simp only [writeLoop] at h
    obtain ⟨p, hp, hrest⟩ := Option.bind_eq_some.mp h
    obtain ⟨q, hq, hf⟩ := Option.map_eq_some'.mp hrest
    injection hf with h1 h2
    obtain ⟨ks, hlen, hpos, htr⟩ := ih p.2 q.1 q.2 (by rw [hq])
    refine ⟨p.1 :: ks, by simp [hlen], ?_, ?_⟩
    · intro k hk
      rcases List.mem_cons.mp hk with hk | hk
      · subst hk
        exact spinWhileBusy_pos usr p.1 p.2 (by rw [hp])
      · exact hpos k hk
    · rw [← h1, htr]
      simp [List.append_assoc]

/-- Helper: a successful `readLoop` produces, per destination byte, a
positive number of line-status reads followed by exactly one
receive-buffer load, and stores one byte per load. -/
theorem readLoop_trace (n : Nat) :
    ∀ (lsr : List Nat) (rx : Nat → Nat) (loads : Nat) (tr : List Event)
      (bytes : List Nat) (lsr2 : List Nat),
      readLoop n lsr rx loads = some (tr, bytes, lsr2) →
      ∃ ks : List Nat, ks.length = n ∧ (∀ k ∈ ks, 0 < k) ∧
        bytes.length = n ∧
        tr = (ks.map
          (fun k => List.replicate k Event.lsrRead ++ [Event.rbrRead])).flatten := by
  induction n with
  | zero =>
    intro lsr rx loads tr bytes lsr2 h
    simp only [readLoop, Option.some.injEq, Prod.mk.injEq] at h
    exact ⟨[], by simp, by simp, by simp [← h.2.1], by simp [← h.1]⟩
  | succ m ih =>
    intro lsr rx loads tr bytes lsr2 h
    simp only [readLoop] at h
    obtain ⟨p, hp, hrest⟩ := Option.bind_eq_some.mp h
    obtain ⟨q, hq, hf⟩ := Option.map_eq_some'.mp hrest
    injection hf with h1 h2
    injection h2 with h2a h2b
    obtain ⟨ks, hlen, hpos, hblen, htr⟩ := ih p.2 rx (loads + 1) q.1 q.2.1 q.2.2 (by rw [hq])
    refine ⟨p.1 :: ks, by simp [hlen], ?_, ?_, ?_⟩
    · intro k hk
      rcases List.mem_cons.mp hk with hk | hk
      · subst hk
        exact spinUntilReady_pos lsr p.1 p.2 (by rw [hp])
      · exact hpos k hk
    · rw [← h2a]
      simp [hblen]
    · rw [← h1, htr]
      simp [List.append_assoc]

/-- C3: for every buffer and every sequence of hardware status reads under
which the call terminates, `write(buffer)` returns `Ok(buffer.len())`, can
never return an error value (the error type `Infallible` is uninhabited),
and its access trace contains exactly one transmit-holding store per
buffer byte, in order, each preceded by at least one status read. -/
theorem uart_write_blocking_spec (usrReads buffer : List Nat) (tr : List Event)
    (r : RustResult Infallible Nat)
    (h : uart_write_blocking usrReads buffer = some (tr, r)) :
    r = RustResult.ok buffer.length ∧
    (∀ e : Infallible, r ≠ RustResult.error e) ∧
    ∃ ks : List Nat, ks.length = buffer.length ∧ (∀ k ∈ ks, 0 < k) ∧
      tr = (List.zipWith
        (fun k c => List.replicate k Event.usrRead ++ [Event.thrWrite c])
        ks buffer).flatten := by
  obtain ⟨q, hq, hf⟩ := Option.map_eq_some'.mp h
  injection hf with h1 h2
  refine ⟨h2.symm, ?_, ?_⟩
  · intro e
    exact nomatch e
  · rw [← h1]
    exact writeLoop_trace buffer usrReads q.1 q.2 (by rw [hq])

/-- Witness for C3: one byte written after one non-busy status read. -/
theorem uart_write_blocking_spec_witness :
    (RustResult.ok 1 : RustResult Infallible Nat) =
      RustResult.ok ([(65 : Nat)] : List Nat).length ∧
    (∀ e : Infallible,
      (RustResult.ok 1 : RustResult Infallible Nat) ≠ RustResult.error e) ∧
    ∃ ks : List Nat, ks.length = ([(65 : Nat)] : List Nat).length ∧
      (∀ k ∈ ks, 0 < k) ∧
      [Event.usrRead, Event.thrWrite 65] = (List.zipWith
        (fun k c => List.replicate k Event.usrRead ++ [Event.thrWrite c])
        ks [65]).flatten :=
  uart_write_blocking_spec [0] [65] [Event.usrRead, Event.thrWrite 65]
    (RustResult.ok 1) (by decide)

/-- C4: for every destination length and every sequence of hardware
line-status reads under which the call terminates, `read(buffer)` returns
`Ok(buffer.len())`, fills every destination byte, and its access trace
contains exactly one receive-buffer load per destination byte, each
preceded by at least one line-status read. -/
theorem uart_read_blocking_spec (lsrReads : List Nat) (rx : Nat → Nat) (n : Nat)
    (tr : List Event) (bytes : List Nat) (r : RustResult Infallible Nat)
    (h : uart_read_blocking lsrReads rx n = some (tr, bytes, r)) :
    r = RustResult.ok n ∧
    bytes.length = n ∧
    ∃ ks : List Nat, ks.length = n ∧ (∀ k ∈ ks, 0 < k) ∧
      tr = (ks.map
        (fun k => List.replicate k Event.lsrRead ++ [Event.rbrRead])).flatten := by
  obtain ⟨q, hq, hf⟩ := Option.map_eq_some'.mp h
  injection hf with h1 h2
  injection h2 with h2a h2b
  obtain ⟨ks, hlen, hpos, hblen, htr⟩ :=
    readLoop_trace n lsrReads rx 0 q.1 q.2.1 q.2.2 (by rw [hq])
  refine ⟨h2b.symm, ?_, ks, hlen, hpos, ?_⟩
  · rw [← h2a]; exact hblen
  · rw [← h1]; exact htr

/-- Witness for C4: one byte read after one data-ready line-status read. -/
theorem uart_read_blocking_spec_witness :
    (RustResult.ok 1 : RustResult Infallible Nat) = RustResult.ok 1 ∧
    ([(66 : Nat)] : List Nat).length = 1 ∧
    ∃ ks : List Nat, ks.length = 1 ∧ (∀ k ∈ ks, 0 < k) ∧
      [Event.lsrRead, Event.rbrRead] = (ks.map
        (fun k => List.replicate k Event.lsrRead ++ [Event.rbrRead])).flatten :=
  uart_read_blocking_spec [1] (fun _ => 66) 1 [Event.lsrRead, Event.rbrRead]
    [66] (RustResult.ok 1) (by decide)

/-- Counterexample to C1 as stated: at apb1 clock `C = 24_000_000` and baud
`B = 2 ^ 28 > 0`, the `u32` product `16 * B` wraps to `0`, so `Serial::new`
divides by zero (a panic, modelled `none`) instead of programming the
divisor `(C + 8 * B) / (16 * B)` truncated to 16 bits. -/
theorem serial_new_divisor_cex :
    serialDivisor 24000000 268435456 ≠
      some ((24000000 + 8 * 268435456) / (16 * 268435456) % 2 ^ 16) := by
  decide

/-- C1 (amended): for every input clock `C` and target baud `B > 0` such
that neither `C + 8 * B` nor `16 * B` overflows `u32`, the divisor
programmed by `Serial::new` equals `(C + 8 * B) / (16 * B)` (integer
division, i.e. round-half-up of `C / (16 * B)`) truncated to 16 bits; in
particular for `C = 24_000_000`, `B = 115200` the divisor is 13. -/
theorem serial_new_divisor {UART PADS : Type} (C B : Nat) (u : UART) (p : PADS)
    (wl : WordLength) (par : Parity) (sb : StopBits)
    (ier0 : InterruptTypes) (lcr0 : LineControl)
    (tr : List Event) (s : Serial UART PADS)
    (hB : 0 < B) (hadd : C + 8 * B < 2 ^ 32) (hmul : 16 * B < 2 ^ 32)
    (h : Serial.new u p ⟨B, wl, par, sb⟩ C ier0 lcr0 = some (tr, s)) :
    serialDivisor C B = some ((C + 8 * B) / (16 * B) % 2 ^ 16) ∧
    Event.divisorWrite ((C + 8 * B) / (16 * B) % 2 ^ 16) ∈ tr ∧
    serialDivisor 24000000 115200 = some 13 := by
  have hsd : serialDivisor C B = some ((C + 8 * B) / (16 * B) % 2 ^ 16) := by
    simp only [serialDivisor]
    rw [Nat.mod_eq_of_lt hadd, Nat.mod_eq_of_lt hmul, if_neg (by omega)]
  refine ⟨hsd, ?_, by decide⟩
  simp only [Serial.new, hsd, Option.map_some', Option.some.injEq,
    Prod.mk.injEq] at h
  rw [← h.1]
  simp

/-- Witness for C1 (amended) at `C = 24_000_000`, `B = 115200` with the
default 8-N-1 framing. -/
theorem serial_new_divisor_witness :
    serialDivisor 24000000 115200 =
      some ((24000000 + 8 * 115200) / (16 * 115200) % 2 ^ 16) ∧
    Event.divisorWrite ((24000000 + 8 * 115200) / (16 * 115200) % 2 ^ 16) ∈
      [Event.clockReset, Event.ierRead,
        Event.ierWrite ⟨false, false, false, false, 0⟩, Event.divisorWrite 13,
        Event.lcrRead, Event.lcrWrite ⟨CharLen.EIGHT, true, PARITY.NONE, 0⟩] ∧
    serialDivisor 24000000 115200 = some 13 :=
  serial_new_divisor 24000000 115200 () () WordLength.Eight Parity.None
    StopBits.One ⟨true, true, true, true, 0⟩ ⟨CharLen.FIVE, false, PARITY.ODD, 0⟩
    [Event.clockReset, Event.ierRead,
      Event.ierWrite ⟨false, false, false, false, 0⟩, Event.divisorWrite 13,
      Event.lcrRead, Event.lcrWrite ⟨CharLen.EIGHT, true, PARITY.NONE, 0⟩]
    { uart := (), pads := () }
    (by decide) (by decide) (by decide) (by decide)

/-- Counterexample to C2 as stated: on the default configuration at a
24 MHz apb1 clock, `Serial::new`'s first hardware access is the clock-gate
reset, not the interrupt-enable capture — the trace it produces is the
first list below and not the claimed interrupts-first ordering. -/
theorem serial_new_order_cex :
    Serial.new () () Config.default 24000000 ⟨true, true, true, true, 0⟩
        ⟨CharLen.FIVE, false, PARITY.ODD, 0⟩ =
      some ([Event.clockReset, Event.ierRead,
        Event.ierWrite ⟨false, false, false, false, 0⟩, Event.divisorWrite 13,
        Event.lcrRead, Event.lcrWrite ⟨CharLen.EIGHT, true, PARITY.NONE, 0⟩],
        { uart := (), pads := () }) ∧
    Serial.new () () Config.default 24000000 ⟨true, true, true, true, 0⟩
        ⟨CharLen.FIVE, false, PARITY.ODD, 0⟩ ≠
      some ([Event.ierRead, Event.ierWrite ⟨false, false, false, false, 0⟩,
        Event.clockReset, Event.divisorWrite 13,
        Event.lcrRead, Event.lcrWrite ⟨CharLen.EIGHT, true, PARITY.NONE, 0⟩],
        { uart := (), pads := () }) := by
  constructor
  · decide
  · decide

/-- C2 (amended): for every configuration whose divisor computation does
not panic, `Serial::new` performs its construction steps in this exact
order: first it resets/enables the clock gate; second it captures the
interrupt-enable register and rewrites it with all four interrupt sources
(modem-status, receive-data-available, receiver-line-status,
transmit-holding-register-empty) masked off and the remaining bits
preserved; third it computes and programs the divisor; fourth it
read-modify-writes the line-control register with the word-length,
stop-bit and parity fields. -/
theorem serial_new_order {UART PADS : Type} (u : UART) (p : PADS)
    (config : Config) (apb1 : Nat) (ier0 : InterruptTypes) (lcr0 : LineControl)
    (hd : (16 * config.baudrate) % 2 ^ 32 ≠ 0) :
    Serial.new u p config apb1 ier0 lcr0 =
      some ([Event.clockReset, Event.ierRead,
        Event.ierWrite ⟨false, false, false, false, ier0.rest⟩,
        Event.divisorWrite ((apb1 + 8 * config.baudrate) % 2 ^ 32
          / ((16 * config.baudrate) % 2 ^ 32) % 2 ^ 16),
        Event.lcrRead,
        Event.lcrWrite (((lcr0.set_char_len
          (charLenOf config.wordlength)).set_one_stop_bit
          (oneStopBitOf config.stopbits)).set_parity (parityOf config.parity))],
        { uart := u, pads := p }) := by
  have hsd : serialDivisor apb1 config.baudrate =
      some ((apb1 + 8 * config.baudrate) % 2 ^ 32
        / ((16 * config.baudrate) % 2 ^ 32) % 2 ^ 16) := by
    simp only [serialDivisor]
    rw [if_neg hd]
  simp [Serial.new, hsd, InterruptTypes.disable_ms,
    InterruptTypes.disable_rda, InterruptTypes.disable_rls,
    InterruptTypes.disable_thre]

/-- Witness for C2 (amended) on the default configuration. -/
theorem serial_new_order_witness :
    Serial.new () () Config.default 24000000 ⟨true, true, true, true, 5⟩
        ⟨CharLen.FIVE, false, PARITY.ODD, 9⟩ =
      some ([Event.clockReset, Event.ierRead,
        Event.ierWrite ⟨false, false, false, false, 5⟩,
        Event.divisorWrite ((24000000 + 8 * Config.default.baudrate) % 2 ^ 32
          / ((16 * Config.default.baudrate) % 2 ^ 32) % 2 ^ 16),
        Event.lcrRead,
        Event.lcrWrite ((((⟨CharLen.FIVE, false, PARITY.ODD, 9⟩ :
          LineControl).set_char_len
          (charLenOf Config.default.wordlength)).set_one_stop_bit
          (oneStopBitOf Config.default.stopbits)).set_parity
          (parityOf Config.default.parity))],
        { uart := (), pads := () }) :=
  serial_new_order () () Config.default 24000000 ⟨true, true, true, true, 5⟩
    ⟨CharLen.FIVE, false, PARITY.ODD, 9⟩ (by decide)

/-- C7: `free` on the `Serial` produced by `Serial::new` disables the
clock gate and returns exactly the peripheral handle and pad pair that
were passed to `new`. -/
theorem serial_free_after_new {UART PADS : Type} (u : UART) (p : PADS)
    (config : Config) (apb1 : Nat) (ier0 : InterruptTypes) (lcr0 : LineControl)
    (tr : List Event) (s : Serial UART PADS)
    (h : Serial.new u p config apb1 ier0 lcr0 = some (tr, s)) :
    s.free = ([Event.clockFree], u, p) := by
  simp only [Serial.new] at h
  obtain ⟨d, -, hf⟩ := Option.map_eq_some'.mp h
  injection hf with h1 h2
  rw [← h2]
  rfl

/-- Witness for C7 on the default configuration. -/
theorem serial_free_after_new_witness :
    Serial.free { uart := (), pads := () } = ([Event.clockFree], (), ()) :=
  serial_free_after_new () () Config.default 24000000
    ⟨true, true, true, true, 0⟩ ⟨CharLen.FIVE, false, PARITY.ODD, 0⟩
    [Event.clockReset, Event.ierRead,
      Event.ierWrite ⟨false, false, false, false, 0⟩, Event.divisorWrite 13,
      Event.lcrRead, Event.lcrWrite ⟨CharLen.EIGHT, true, PARITY.NONE, 0⟩]
    { uart := (), pads := () } (by decide)

/-- Counterexample to C9 as stated: the baud value `B = 2 ^ 28` is greater
than zero, yet the `u32` product `16 * B` wraps to `0` and the divisor
computation divides by zero (modelled `none`), so "no division by zero for
every baudrate greater than zero" is false. -/
theorem serial_divisor_guard_cex :
    0 < 268435456 ∧ (16 * 268435456) % 2 ^ 32 = 0 ∧
    serialDivisor 24000000 268435456 = none := by
  decide

/-- C9 (amended): the divisor computation has no guard on the baud value:
whenever `0 < B` and the product `16 * B` does not wrap to zero in `u32`,
the computation is well-defined, and for a configuration with baudrate
zero it divides by zero. -/
theorem serial_divisor_guard (C B : Nat) (hB : 0 < B)
    (hmul : 16 * B < 2 ^ 32) :
    (serialDivisor C B).isSome = true ∧ serialDivisor C 0 = none := by
  constructor
  · simp only [serialDivisor]
    rw [Nat.mod_eq_of_lt hmul, if_neg (by omega)]
    rfl
  · simp [serialDivisor]

/-- Witness for C9 (amended) at `C = 24_000_000`, `B = 115200`. -/
theorem serial_divisor_guard_witness :
    (serialDivisor 24000000 115200).isSome = true ∧
    serialDivisor 24000000 0 = none :=
  serial_divisor_guard 24000000 115200 (by decide) (by decide)

end AllwinnerUart
